import Mathlib

/-!
Shallow embedding of the runtime-resource lifecycle reconciler of
`mlrun/runtimes/base.py` (class `BaseRuntimeHandler`), faithful to the
Python dictionary-based code: optional dictionary keys become `Option`
fields, Python truthiness of strings and records is modelled explicitly,
`datetime` values become integers (seconds), and Python exceptions become
`Except String`.  Functions keep the source names (leading underscores
dropped).  Configuration values (debounce intervals, grace periods) and
the current time are passed as explicit parameters.
-/

namespace MlrunBase

/-- Decidable equality for `Except`, used to evaluate the embedded
fallible functions on concrete inputs. -/
instance {ε α : Type} [DecidableEq ε] [DecidableEq α] :
    DecidableEq (Except ε α) := fun a b =>
  match a, b with
  | Except.ok x, Except.ok y =>
    if h : x = y then isTrue (by rw [h]) else isFalse (by simp [h])
  | Except.error x, Except.error y =>
    if h : x = y then isTrue (by rw [h]) else isFalse (by simp [h])
  | Except.ok _, Except.error _ => isFalse (by simp)
  | Except.error _, Except.ok _ => isFalse (by simp)

/-- Python truthiness of an optional string (`None` and `""` are falsy). -/
def truthyStr : Option String → Bool
  | none => false
  | some s => !(s == "")

/-- Python `x in l` for an optional string (`None in l` is `False`). -/
def optMem (s : Option String) (l : List String) : Bool :=
  match s with
  | none => false
  | some x => decide (x ∈ l)

/-! ## States and pod phases

`RunStates` and `PodPhases` live in `mlrun/runtimes/constants.py`, which is
not part of the sources under study; they are modelled from the spec. -/

/-- Modelled from the spec: `RunStates.terminal_states()` from
`mlrun/runtimes/constants.py` (not in the sources) — the terminal run
states are completed, error and aborted. -/
def RunStates.terminal_states : List String :=
  ["completed", "error", "aborted"]

/-- Modelled from the spec: `RunStates.non_terminal_states()` from
`mlrun/runtimes/constants.py` (not in the sources) — the non-terminal run
states are the rest of the enum (pending, running, created, unknown). -/
def RunStates.non_terminal_states : List String :=
  ["pending", "running", "created", "unknown"]

/-- Modelled from the spec: `RunStates.error`. -/
def RunStates.error : String := "error"

/-- Modelled from the spec: `PodPhases.terminal_phases()` from
`mlrun/runtimes/constants.py` (not in the sources) — the provider's
terminal pod phases. -/
def PodPhases.terminal_phases : List String :=
  ["Succeeded", "Failed"]

/-- Modelled from the spec: `PodPhases.pod_phase_to_run_state` — the fixed
phase→run-state table. -/
def PodPhases.pod_phase_to_run_state : String → Option String
  | "Succeeded" => some "completed"
  | "Failed" => some "error"
  | "Running" => some "running"
  | "Pending" => some "pending"
  | "Unknown" => some "unknown"
  | _ => none

/-! ## Run records (the dictionaries stored in the run DB) -/

/-- `run["metadata"]`: project, name, uid, and `labels["kind"]`. -/
structure RunMeta where
  project : Option String := none
  name : Option String := none
  uid : Option String := none
  labels_kind : Option String := none
deriving Repr, DecidableEq

/-- `run["status"]`: state, last_update (seconds), reason. -/
structure RunStatus where
  state : Option String := none
  last_update : Option Int := none
  reason : Option String := none
deriving Repr, DecidableEq

/-- A run dictionary; `metadata`/`status` keys may be absent. -/
structure RunRecord where
  metadata : Option RunMeta := none
  status : Option RunStatus := none
deriving Repr, DecidableEq

/-- Python truthiness of the run dictionary (`{}` is falsy). -/
def RunRecord.truthy (r : RunRecord) : Bool :=
  !(r.metadata == none && r.status == none)

/-- `run.get("status", {}).get("state")`. -/
def RunRecord.state (r : RunRecord) : Option String :=
  (r.status.getD {}).state

/-- `run.get("status", {}).get("last_update")`. -/
def RunRecord.last_update (r : RunRecord) : Option Int :=
  (r.status.getD {}).last_update

/-- `run.setdefault("status", {})["state"] = s`. -/
def RunRecord.setState (r : RunRecord) (s : Option String) : RunRecord :=
  { r with status := some { r.status.getD {} with state := s } }

/-- `run.setdefault("status", {})["last_update"] = t`. -/
def RunRecord.setLastUpdate (r : RunRecord) (t : Int) : RunRecord :=
  { r with status := some { r.status.getD {} with last_update := some t } }

/-- `run.setdefault("status", {})["reason"] = s`. -/
def RunRecord.setReason (r : RunRecord) (s : String) : RunRecord :=
  { r with status := some { r.status.getD {} with reason := some s } }

/-! ## The run store (external collaborator)

`db.read_run` / `db.store_run` keyed by (project, uid); modelled as an
association list with upsert. -/

/-- The run store: association list keyed by (project, uid). -/
def Db : Type := List ((String × String) × RunRecord)

instance : DecidableEq Db := by
  unfold Db
  infer_instance

/-- `db.read_run(db_session, uid, project)`: `none` models
`MLRunNotFoundError`. -/
def Db.read_run (db : Db) (project uid : String) : Option RunRecord :=
  (db.find? (fun kv => kv.fst == (project, uid))).map (·.snd)

/-- `db.store_run(db_session, run, uid, project)`: upsert. -/
def Db.store_run (db : Db) (project uid : String) (run : RunRecord) : Db :=
  match db with
  | [] => [((project, uid), run)]
  | kv :: rest =>
    if kv.fst == (project, uid) then ((project, uid), run) :: rest
    else kv :: Db.store_run rest project uid run

/-! ## `BaseRuntimeHandler._ensure_run_state` (base.py lines 2026-2097) -/

/-- Result of `_ensure_run_state`: the returned pair
`(changed, run_state)`, the record passed to `db.store_run` (if any), and
the resulting store. -/
structure EnsureStateResult where
  changed : Bool
  state : Option String
  stored : Option RunRecord
  db : Db
deriving DecidableEq

/-- The run record `_ensure_run_state` operates on (base.py lines
2037-2052): the `run` argument (or `\x7b\x7d`), overwritten by the store
read when `search_run` is set (`\x7b\x7d` on `MLRunNotFoundError`), and
replaced by a fresh metadata-only record when empty. -/
def ensure_run_state_run1 (db : Db) (project uid name : String)
    (run : Option RunRecord) (search_run : Bool) : RunRecord :=
  let run0 : RunRecord :=
    if search_run then (db.read_run project uid).getD {}
    else run.getD {}
  if run0.truthy then run0
  else { metadata := some { project := some project, name := some name,
                            uid := some uid } }

/-- The early-return section of `_ensure_run_state` (base.py lines
2053-2082, the `if db_run_state:` block): `some res` models a `return`
before the final write, `none` the fall-through to it. -/
def ensure_run_state_early (now debounce : Int) (db : Db)
    (run_state : Option String) (run1 : RunRecord) :
    Option EnsureStateResult :=
  let db_run_state := run1.state
  if truthyStr db_run_state then
    if db_run_state == run_state then
      some { changed := false, state := run_state, stored := none, db := db }
    else if optMem db_run_state RunStates.terminal_states then
      -- `if run_state not in RunStates.terminal_states():`
      if !(optMem run_state RunStates.terminal_states) then
        match run1.last_update with
        | some lu =>
          if lu > now - debounce then
            some { changed := false, state := run_state, stored := none,
                   db := db }
          else none
        | none => none
      else none
    else none
  else none

/-- `BaseRuntimeHandler._ensure_run_state` (base.py lines 2026-2097).
`now` is the current time and `debounce` is
`config.runs_monitoring_interval` (both injected); the rest mirrors the
Python signature. -/
def ensure_run_state (now debounce : Int) (db : Db) (project uid name : String)
    (run_state : Option String) (run : Option RunRecord := none)
    (search_run : Bool := true) : EnsureStateResult :=
  let run1 := ensure_run_state_run1 db project uid name run search_run
  match ensure_run_state_early now debounce db run_state run1 with
  | some res => res
  | none =>
    -- base.py lines 2092-2097: the accepted write
    let run2 := (run1.setState run_state).setLastUpdate now
    { changed := true, state := run_state, stored := some run2,
      db := db.store_run project uid run2 }

/-! ## Runtime resources (pod / custom-object dictionaries) -/

/-- `container_status["state"]["terminated"]`: holds `finished_at` when
present (`.get("finished_at")` may return `None`). -/
structure TerminatedInfo where
  finished_at : Option Int := none
deriving Repr, DecidableEq

/-- `container_status["state"]`: the `terminated` key may be absent (or
`None`, which Python treats the same under truthiness). -/
structure ContainerState where
  terminated : Option TerminatedInfo := none
deriving Repr, DecidableEq

/-- One entry of `pod["status"]["container_statuses"]`; the `state` key may
be absent (`.get("state", {})`). -/
structure ContainerStatus where
  state : Option ContainerState := none
deriving Repr, DecidableEq

/-- `pod["status"]`: `phase` may be absent (accessed with `["phase"]`, so a
missing key raises `KeyError`); `container_statuses` is read with
`.get(..., [])`. -/
structure PodStatus where
  phase : Option String := none
  container_statuses : Option (List ContainerStatus) := none
deriving Repr, DecidableEq

/-- `resource["metadata"]["labels"]`: the `mlrun/*` labels used to resolve
the owning run. -/
structure ResourceLabels where
  mlrun_project : Option String := none
  mlrun_uid : Option String := none
  mlrun_name : Option String := none
deriving Repr, DecidableEq

/-- `resource["metadata"]`: name plus labels (`.get("labels", {})`). -/
structure ResourceMeta where
  name : String := ""
  labels : Option ResourceLabels := none
deriving Repr, DecidableEq

/-- A runtime-resource dictionary (a pod or a custom object); the `status`
key may be absent (`pod["status"]` raises `KeyError` when missing). -/
structure Pod where
  metadata : Option ResourceMeta := none
  status : Option PodStatus := none
deriving Repr, DecidableEq

/-- `config.default_project` (from `mlrun/config.py`, not in the sources;
its default value is the literal below). -/
def default_project : String := "default"

/-- `BaseRuntimeHandler._resolve_runtime_resource_run` (base.py lines
2099-2112): safe `.get` chains over metadata/labels, defaulting project to
`config.default_project` and name to "no-name". -/
def resolve_runtime_resource_run (r : Pod) :
    String × Option String × String :=
  let labels := ((r.metadata.getD {}).labels).getD {}
  let project0 := labels.mlrun_project
  let project := if truthyStr project0 then project0.getD "" else default_project
  let uid := labels.mlrun_uid
  let name := (labels.mlrun_name).getD "no-name"
  (project, uid, name)

/-- The loop of `_resolve_pod_status_info` over
`pod["status"].get("container_statuses", [])`: keeps the latest completion
time.  Mirrors Python exactly, including the `TypeError` that
`last < None` raises when a terminated container has no `finished_at`
while an earlier one had. -/
def last_completion_loop (css : List ContainerStatus) (acc : Option Int) :
    Except String (Option Int) :=
  match css with
  | [] => Except.ok acc
  | cs :: rest =>
    -- `if container_status.get("state", {}).get("terminated"):`
    match (cs.state.getD {}).terminated with
    | none => last_completion_loop rest acc
    | some term =>
      let cur := term.finished_at
      -- `if not last or last < cur:` (short-circuit)
      match acc with
      | none => last_completion_loop rest cur
      | some l =>
        match cur with
        | none =>
          Except.error "TypeError: comparison of datetime and NoneType"
        | some c =>
          if l < c then last_completion_loop rest (some c)
          else last_completion_loop rest acc

/-- `BaseRuntimeHandler._resolve_pod_status_info` (base.py lines
1316-1342).  `pod["status"]["phase"]` raises `KeyError` when either key is
missing; returns `(in_terminal_state, last_container_completion_time,
run_state)`. -/
def resolve_pod_status_info (pod : Pod) :
    Except String (Bool × Option Int × Option String) :=
  match pod.status with
  | none => Except.error "KeyError: status"
  | some status =>
    match status.phase with
    | none => Except.error "KeyError: phase"
    | some phase =>
      let in_terminal_state := decide (phase ∈ PodPhases.terminal_phases)
      let run_state := PodPhases.pod_phase_to_run_state phase
      if in_terminal_state then
        match last_completion_loop (status.container_statuses.getD [])
            none with
        | Except.error e => Except.error e
        | Except.ok last => Except.ok (in_terminal_state, last, run_state)
      else Except.ok (in_terminal_state, none, run_state)

/-- `BaseRuntimeHandler._resolve_crd_object_status_info` (base.py lines
1290-1300): the base-class default — never terminal, no timestamp, no
state. -/
def resolve_crd_object_status_info (_crd_object : Pod) :
    Bool × Option Int × Option String :=
  (false, none, none)

/-! ## `_ensure_run_not_stuck_on_non_terminal_state` (base.py 1125-1207) -/

/-- The sentinel reason the source writes for orphaned runs
(base.py lines 1202-1205). -/
def orphanReason : String :=
  "A runtime resource related to this run could not be found"

/-- `run_runtime_resources_map`: `project -> uid -> resource name`,
modelled as nested association lists.  A resource with an unresolvable
uid is inserted under the `none` key, as Python inserts `None`. -/
def ResourcesMap : Type := List (String × List (Option String))

instance : DecidableEq ResourcesMap := by
  unfold ResourcesMap
  infer_instance

/-- `run_uid in run_runtime_resources_map.get(project, \x7b\x7d)` for a
(string) run uid. -/
def ResourcesMap.hasUid (m : ResourcesMap) (project uid : String) : Bool :=
  (((m.find? (fun kv => kv.fst == project)).map (·.snd)).getD []).contains
    (some uid)

/-- `run_runtime_resources_map.setdefault(project, \x7b\x7d)` followed by
`.update(\x7buid: \x7b"name": name\x7d\x7d)` (base.py lines 1076-1077). -/
def ResourcesMap.insert (m : ResourcesMap) (project : String)
    (uid : Option String) : ResourcesMap :=
  match m with
  | [] => [(project, [uid])]
  | (p, us) :: rest =>
    if p == project then
      (p, if us.contains uid then us else us ++ [uid]) :: rest
    else (p, us) :: ResourcesMap.insert rest project uid

/-- `BaseRuntimeHandler._ensure_run_not_stuck_on_non_terminal_state`
(base.py lines 1125-1207).  `now` is injected; `debounce` is
`config.resolve_runs_monitoring_missing_runtime_resources_debouncing_interval()`.
Returns the record passed to `db.store_run` (if any) and the resulting
store. -/
def ensure_run_not_stuck_on_non_terminal_state (now debounce : Int)
    (db : Db) (project run_uid : String) (run : RunRecord)
    (run_runtime_resources_map : ResourcesMap) : Option RunRecord × Db :=
  let db_run_state := run.state
  if !truthyStr db_run_state then
    -- run without state: set a terminal state to avoid log spamming
    let run1 := (run.setState (some RunStates.error)).setLastUpdate now
    (some run1, db.store_run project run_uid run1)
  else if optMem db_run_state RunStates.non_terminal_states then
    -- `if run_runtime_resources_map and run_uid in ...get(project, {}):`
    if !run_runtime_resources_map.isEmpty
        && run_runtime_resources_map.hasUid project run_uid then
      (none, db)
    else
      match run.last_update with
      | none =>
        let run1 := run.setLastUpdate now
        (some run1, db.store_run project run_uid run1)
      | some last_update =>
        if last_update > now - debounce then
          -- recently updated: debounce, only log
          (none, db)
        else
          let run1 :=
            (((run.setState (some RunStates.error)).setReason
              orphanReason).setLastUpdate now)
          (some run1, db.store_run project run_uid run1)
  else (none, db)

/-! ## `_list_runs_for_monitoring` (base.py 1774-1814) -/

/-- The in-memory monitoring map `project -> uid -> run record`. -/
def RunUidMap : Type := List (String × List (String × RunRecord))

instance : DecidableEq RunUidMap := by
  unfold RunUidMap
  infer_instance

/-- `project_run_uid_map.setdefault(project, \x7b\x7d).get(uid)`. -/
def RunUidMap.get (m : RunUidMap) (project uid : String) : Option RunRecord :=
  ((((m.find? (fun kv => kv.fst == project)).map (·.snd)).getD []).find?
    (fun kv => kv.fst == uid)).map (·.snd)

/-- `project_run_uid_map[project][uid] = run` (with `setdefault`). -/
def RunUidMap.insert (m : RunUidMap) (project uid : String)
    (run : RunRecord) : RunUidMap :=
  match m with
  | [] => [(project, [(uid, run)])]
  | (p, us) :: rest =>
    if p == project then (p, us ++ [(uid, run)]) :: rest
    else (p, us) :: RunUidMap.insert rest project uid run

/-- The fold of `_list_runs_for_monitoring` over the run listing.  On a
duplicated (project, uid) the source evaluates
`current_run.get(["metadata"])` — `dict.get` with a list key, which raises
`TypeError: unhashable type: 'list'`. -/
def list_runs_for_monitoring_loop (runs : List RunRecord) (acc : RunUidMap) :
    Except String RunUidMap :=
  match runs with
  | [] => Except.ok acc
  | run :: rest =>
    let project := (run.metadata.getD {}).project
    let uid := (run.metadata.getD {}).uid
    if !truthyStr uid || !truthyStr project then
      -- collected into run_with_missing_data, then `continue`
      list_runs_for_monitoring_loop rest acc
    else
      let projectS := project.getD ""
      let uidS := uid.getD ""
      match acc.get projectS uidS with
      | some current_run =>
        -- `current_run.get(["metadata"])` — a list is unhashable
        let _ := current_run
        Except.error "TypeError: unhashable type: list"
      | none =>
        list_runs_for_monitoring_loop rest (acc.insert projectS uidS run)

/-- `BaseRuntimeHandler._list_runs_for_monitoring` (base.py lines
1774-1814), applied to the result of
`db.list_runs(db_session, project="*", states=states)` (the bulk listing
of the external Run Store, passed in as a list). -/
def list_runs_for_monitoring (runs : List RunRecord) :
    Except String RunUidMap :=
  list_runs_for_monitoring_loop runs []

/-! ## Kind policy, environment and observable effects -/

/-- The per-kind configuration of a `BaseRuntimeHandler` subclass: the
`kind` attribute, the `mlrun/class` label values, `_get_crd_info`,
`_are_resources_coupled_to_run_object` and `_expect_pods_without_uid`
(base.py lines 920-921, 939-949, 1370-1391). -/
structure KindPolicy where
  kind : String := "base"
  class_values : List String := []
  crd_info : String × String × String := ("", "", "")
  are_resources_coupled_to_run_object : Bool := false
  expect_pods_without_uid : Bool := false
deriving Repr, DecidableEq

/-- `BaseRuntimeHandler._get_default_label_selector` (base.py lines
1344-1355), with `class_mode=None` so the class values are
`list(self.class_modes.values())`. -/
def get_default_label_selector (p : KindPolicy) : String :=
  match p.class_values with
  | [] => ""
  | [v] => "mlrun/class=" ++ v
  | vs => "mlrun/class in (" ++ String.intercalate ", " vs ++ ")"

/-- `BaseRuntimeHandler.resolve_label_selector` (base.py lines 1420-1451)
with the defaults used by `delete_resources` (`object_id=None`,
`class_mode=None`, `with_main_runtime_resource_label_selector=False`). -/
def resolve_label_selector (p : KindPolicy) (project : String)
    (label_selector : Option String) : String :=
  let default_label_selector := get_default_label_selector p
  let sel :=
    match label_selector with
    | some l => if l == "" then default_label_selector
                else default_label_selector ++ "," ++ l
    | none => default_label_selector
  if project != "" && project != "*" then
    sel ++ ",mlrun/project=" ++ project
  else sel

/-- `if crd_group and crd_version and crd_plural:` (base.py 1017, 1066). -/
def KindPolicy.hasCrd (p : KindPolicy) : Bool :=
  p.crd_info.1 != "" && p.crd_info.2.1 != "" && p.crd_info.2.2 != ""

/-- The execution environment: the Resource Provider (`get_k8s()`) and the
Run Store bulk listing, injected as data. -/
structure K8sEnv where
  is_running_inside_kubernetes_cluster : Bool := true
  resolved_namespace : String := "default-tenant"
  pods : List Pod := []
  crd_objects : List Pod := []
  listed_runs : List RunRecord := []
deriving Repr, DecidableEq

/-- Observable interactions with the Resource Provider, Run Store and Log
Archive, recorded in order. -/
inductive Effect where
  | resolveNamespace : Effect
  | listPods (selector : String) : Effect
  | listCRDs (selector : String) : Effect
  | listRuns : Effect
  | readRun (project uid : String) : Effect
  | storeRun (project uid : String) : Effect
  | deletePod (name : String) : Effect
  | deleteCRD (name : String) : Effect
  | ensureRunLogsCollected (project uid : String) : Effect
  | waitForPodsDeletion : Effect
  | waitForCRDsUnderlyingPodsDeletion : Effect
deriving Repr, DecidableEq

/-- `BaseRuntimeHandler._ensure_run_logs_collected` (base.py lines
2008-2024).  The body only calls `mlrun.api.crud.Logs` (not among the
sources under study) — modelled from the spec as the Log Archive
interaction ("does a log already exist" / "store this log blob"),
recorded as a single opaque effect. -/
def ensure_run_logs_collected (project uid : String) : List Effect :=
  [Effect.ensureRunLogsCollected project uid]

/-! ## `_pre_deletion_runtime_resource_run_actions` (base.py 1712-1740) -/

/-- `BaseRuntimeHandler._pre_deletion_runtime_resource_run_actions`
(base.py lines 1712-1740): resolve the run identity; without a uid either
raise `ValueError` (kind does not expect uid-less resources) or return;
otherwise reconcile the run state and ensure logs are collected. -/
def pre_deletion_runtime_resource_run_actions (now debounce : Int)
    (db : Db) (expect_pods_without_uid : Bool) (runtime_resource : Pod)
    (run_state : Option String) : Except String (Db × List Effect) :=
  let (project, uid, name) := resolve_runtime_resource_run runtime_resource
  if !truthyStr uid then
    if !expect_pods_without_uid then
      Except.error "ValueError: Could not resolve run uid from runtime resource"
    else
      Except.ok (db, [])
  else
    let uidS := uid.getD ""
    let res := ensure_run_state now debounce db project uidS name run_state
    Except.ok (res.db,
      (if res.stored.isSome then [Effect.storeRun project uidS] else [])
        ++ ensure_run_logs_collected project uidS)

/-! ## `_delete_pod_resources` (base.py 1567-1627) -/

/-- The per-pod selection decision of `_delete_pod_resources` (base.py
lines 1586-1602): a pod whose status resolution raises is skipped by the
per-pod `except` handler; otherwise it is kept when `force` is set, or
when it is in a terminal state and its last container completion time is
unknown or at least `grace_period` seconds before `now`. -/
def pod_deletion_eligible (now grace : Int) (force : Bool) (pod : Pod) :
    Bool :=
  match resolve_pod_status_info pod with
  | Except.error _ => false
  | Except.ok (in_terminal_state, last_update, _) =>
    if !force && !in_terminal_state then false
    else if !force
        && (match last_update with
            | some lu => decide (lu + grace > now)
            | none => false) then false
    else true

/-- The loop body of `_delete_pod_resources` (base.py lines 1582-1624):
for each pod, resolve status, apply the force/terminal/grace filter,
run the pre-deletion actions when the kind is coupled (their failure is
caught and does not prevent the deletion), then delete.  Returns the
deleted pods, the resulting store and the recorded effects. -/
def delete_pod_resources_loop (now debounce grace : Int) (force : Bool)
    (policy : KindPolicy) : List Pod → Db → List Pod × Db × List Effect
  | [], db => ([], db, [])
  | pod :: rest, db =>
    let step : Option (Db × List Effect) :=
      match resolve_pod_status_info pod with
      | Except.error _ => none
      | Except.ok (in_terminal_state, last_update, run_state) =>
        if !force && !in_terminal_state then none
        else if !force
            && (match last_update with
                | some lu => decide (lu + grace > now)
                | none => false) then none
        else
          let (db1, effs1) :=
            if policy.are_resources_coupled_to_run_object then
              match pre_deletion_runtime_resource_run_actions now debounce db
                  policy.expect_pods_without_uid pod run_state with
              | Except.error _ => (db, [])
              | Except.ok r => r
            else (db, [])
          some (db1, effs1 ++ [Effect.deletePod (pod.metadata.getD {}).name])
    match step with
    | none => delete_pod_resources_loop now debounce grace force policy rest db
    | some (db1, effs) =>
      let (dRest, db2, effsRest) :=
        delete_pod_resources_loop now debounce grace force policy rest db1
      (pod :: dRest, db2, effs ++ effsRest)

/-- `BaseRuntimeHandler._delete_pod_resources` (base.py lines 1567-1627):
list the pods, run the deletion loop, then wait for the deleted pods to
disappear (`_wait_for_pods_deletion`, a poll of the Resource Provider,
recorded as an effect). -/
def delete_pod_resources (now debounce grace : Int) (force : Bool)
    (policy : KindPolicy) (env : K8sEnv) (label_selector : String)
    (db : Db) : List Pod × Db × List Effect :=
  let (deleted, db1, effs) :=
    delete_pod_resources_loop now debounce grace force policy env.pods db
  (deleted, db1,
    [Effect.listPods label_selector] ++ effs ++ [Effect.waitForPodsDeletion])

/-- The loop body of `_delete_crd_resources` (base.py lines 1655-1708):
identical discipline to the pod loop, with the base-class CRD status
resolver (which never raises). -/
def delete_crd_resources_loop (now debounce grace : Int) (force : Bool)
    (policy : KindPolicy) : List Pod → Db → List Pod × Db × List Effect
  | [], db => ([], db, [])
  | crd_object :: rest, db =>
    let (in_terminal_state, last_update, desired_run_state) :=
      resolve_crd_object_status_info crd_object
    let step : Option (Db × List Effect) :=
      if !force && !in_terminal_state then none
      else if !force
          && (match last_update with
              | some lu => decide (lu + grace > now)
              | none => false) then none
      else
        let (db1, effs1) :=
          if policy.are_resources_coupled_to_run_object then
            match pre_deletion_runtime_resource_run_actions now debounce db
                policy.expect_pods_without_uid crd_object desired_run_state with
            | Except.error _ => (db, [])
            | Except.ok r => r
          else (db, [])
        some (db1,
          effs1 ++ [Effect.deleteCRD (crd_object.metadata.getD {}).name])
    match step with
    | none => delete_crd_resources_loop now debounce grace force policy rest db
    | some (db1, effs) =>
      let (dRest, db2, effsRest) :=
        delete_crd_resources_loop now debounce grace force policy rest db1
      (crd_object :: dRest, db2, effs ++ effsRest)

/-- `BaseRuntimeHandler._delete_crd_resources` (base.py lines 1629-1710):
list the custom objects (a missing CRD kind yields an empty listing), run
the deletion loop, then wait for the underlying pods of the deleted
objects. -/
def delete_crd_resources (now debounce grace : Int) (force : Bool)
    (policy : KindPolicy) (env : K8sEnv) (label_selector : String)
    (db : Db) : List Pod × Db × List Effect :=
  let (deleted, db1, effs) :=
    delete_crd_resources_loop now debounce grace force policy
      env.crd_objects db
  (deleted, db1,
    [Effect.listCRDs label_selector] ++ effs
      ++ [Effect.waitForCRDsUnderlyingPodsDeletion])

/-- `BaseRuntimeHandler.delete_resources` (base.py lines 1001-1043): a
no-op outside an orchestrated cluster; otherwise resolve the namespace and
label selector and delete the CRD resources (when the kind has a CRD
identity) or the pod resources.  `_delete_extra_resources` is the
base-class no-op (base.py lines 1271-1288). -/
def delete_resources (now debounce grace : Int) (force : Bool)
    (policy : KindPolicy) (env : K8sEnv) (label_selector : Option String)
    (db : Db) : List Pod × Db × List Effect :=
  if !env.is_running_inside_kubernetes_cluster then ([], db, [])
  else
    let sel := resolve_label_selector policy "*" label_selector
    let (deleted, db1, effs) :=
      if policy.hasCrd then
        delete_crd_resources now debounce grace force policy env sel db
      else
        delete_pod_resources now debounce grace force policy env sel db
    (deleted, db1, [Effect.resolveNamespace] ++ effs)

/-! ## Monitor Loop (`monitor_runs`, base.py 1061-1123) -/

/-- `BaseRuntimeHandler._monitor_runtime_resource` (base.py lines
1816-1867): resolve the owning run, look it up in the monitoring map,
derive the run state from the resource status (the pod resolver may
raise — propagated to the caller's per-resource handler), reconcile it
with `search_run=False`, and collect logs when the resulting state is
terminal.  `_update_ui_url` is the base-class no-op. -/
def monitor_runtime_resource (now debounce : Int) (db : Db)
    (project_run_uid_map : RunUidMap) (runtime_resource : Pod)
    (runtime_resource_is_crd : Bool) (project0 : String)
    (uid0 : Option String) (name0 : String) :
    Except String (Db × List Effect) := do
  let (project, uid, name) :=
    if project0 == "" && !truthyStr uid0 && name0 == "" then
      resolve_runtime_resource_run runtime_resource
    else (project0, uid0, name0)
  if project == "" || !truthyStr uid then
    return (db, [])
  let uidS := uid.getD ""
  let run := project_run_uid_map.get project uidS
  let run_state ←
    if runtime_resource_is_crd then
      Except.ok (resolve_crd_object_status_info runtime_resource).2.2
    else do
      let (_, _, rs) ← resolve_pod_status_info runtime_resource
      Except.ok rs
  let res := ensure_run_state now debounce db project uidS name run_state
    run false
  let effs :=
    (if res.stored.isSome then [Effect.storeRun project uidS] else [])
      ++ (if optMem res.state RunStates.terminal_states then
            ensure_run_logs_collected project uidS
          else [])
  return (res.db, effs)

/-- The resource loop of `monitor_runs` (base.py lines 1074-1097): builds
`run_runtime_resources_map` and monitors each resource, swallowing
per-resource failures. -/
def monitor_resources_loop (now debounce : Int)
    (project_run_uid_map : RunUidMap) (runtime_resource_is_crd : Bool) :
    List Pod → Db → ResourcesMap → ResourcesMap × Db × List Effect
  | [], db, m => (m, db, [])
  | r :: rest, db, m =>
    let (project, uid, name) := resolve_runtime_resource_run r
    let m1 := m.insert project uid
    let (db1, effs1) :=
      match monitor_runtime_resource now debounce db project_run_uid_map r
          runtime_resource_is_crd project uid name with
      | Except.error _ => (db, [])
      | Except.ok r => r
    let (m2, db2, effs2) :=
      monitor_resources_loop now debounce project_run_uid_map
        runtime_resource_is_crd rest db1 m1
    (m2, db2, effs1 ++ effs2)

/-- One project's inner loop of the stuck-run sweep of `monitor_runs`
(base.py lines 1100-1123): for each run of the monitoring map, re-read it
from the store when empty (a missing run raises and is swallowed), then
apply the orphan rule when the run's `kind` label matches the handler. -/
def monitor_stuck_runs_project_loop (now debounce2 : Int)
    (policy : KindPolicy) (run_runtime_resources_map : ResourcesMap)
    (project : String) :
    List (String × RunRecord) → Db → Db × List Effect
  | [], db => (db, [])
  | (run_uid, run0) :: rest, db =>
    let runRead : Option RunRecord :=
      if !run0.truthy then db.read_run project run_uid else some run0
    let (db1, effs1) :=
      match runRead with
      | none => (db, [])   -- `MLRunNotFoundError`, caught by the except
      | some run =>
        if policy.kind == ((run.metadata.getD {}).labels_kind).getD "" then
          let (stored, db') := ensure_run_not_stuck_on_non_terminal_state
            now debounce2 db project run_uid run run_runtime_resources_map
          (db', if stored.isSome then [Effect.storeRun project run_uid] else [])
        else (db, [])
    let (db2, effs2) := monitor_stuck_runs_project_loop now debounce2 policy
      run_runtime_resources_map project rest db1
    (db2, effs1 ++ effs2)

/-- The outer stuck-run sweep of `monitor_runs` (base.py lines
1098-1123). -/
def monitor_stuck_runs_loop (now debounce2 : Int) (policy : KindPolicy)
    (run_runtime_resources_map : ResourcesMap) :
    RunUidMap → Db → Db × List Effect
  | [], db => (db, [])
  | (project, runs) :: rest, db =>
    let (db1, effs1) :=
      if runs.isEmpty then (db, [])
      else monitor_stuck_runs_project_loop now debounce2 policy
        run_runtime_resources_map project runs db
    let (db2, effs2) := monitor_stuck_runs_loop now debounce2 policy
      run_runtime_resources_map rest db1
    (db2, effs1 ++ effs2)

/-- `BaseRuntimeHandler.monitor_runs` (base.py lines 1061-1123): one
Monitor Loop pass.  `debounce` is `config.runs_monitoring_interval` and
`debounce2` the missing-runtime-resources debouncing interval.  The pass
resolves the namespace, lists the kind's resources (note: with no
in-cluster check), builds the monitoring map from the run listing (an
error there — e.g. the duplicated-run `TypeError` — aborts the pass and
is returned), monitors each resource, and finally sweeps for stuck runs.
Returns the resulting store, the effects in order, and the escaped
exception if any. -/
def monitor_runs (now debounce debounce2 : Int) (policy : KindPolicy)
    (env : K8sEnv) (db : Db) : Db × List Effect × Option String :=
  let label_selector := get_default_label_selector policy
  let runtime_resource_is_crd := policy.hasCrd
  let (resources, listEff) :=
    if runtime_resource_is_crd then
      (env.crd_objects, Effect.listCRDs label_selector)
    else (env.pods, Effect.listPods label_selector)
  let effs0 := [Effect.resolveNamespace, listEff, Effect.listRuns]
  match list_runs_for_monitoring env.listed_runs with
  | Except.error e => (db, effs0, some e)
  | Except.ok project_run_uid_map =>
    let (run_runtime_resources_map, db1, effs1) :=
      monitor_resources_loop now debounce project_run_uid_map
        runtime_resource_is_crd resources db []
    let (db2, effs2) := monitor_stuck_runs_loop now debounce2 policy
      run_runtime_resources_map project_run_uid_map db1
    (db2, effs0 ++ effs1 ++ effs2, none)

/-! ## Specification-side definitions for the grace-period claim -/

/-- The completion times the loop of `_resolve_pod_status_info` scans: the
`finished_at` of every terminated container, in order. -/
def completion_times (css : List ContainerStatus) : List Int :=
  css.filterMap
    (fun cs => ((cs.state.getD {}).terminated).bind TerminatedInfo.finished_at)

/-- Specification-side definition, following the spec's words: the
maximum ("latest") of a list of completion times, folded over an optional
seed; `none` when there is none. -/
def spec_max_completion (acc : Option Int) : List Int → Option Int
  | [] => acc
  | c :: rest =>
    spec_max_completion
      (match acc with
       | none => some c
       | some a => some (max a c)) rest

/-- Every terminated container carries a `finished_at` — the payloads for
which the source's scan is exception-free. -/
def containers_wellformed (css : List ContainerStatus) : Bool :=
  css.all (fun cs =>
    match (cs.state.getD {}).terminated with
    | some ti => ti.finished_at.isSome
    | none => true)

/-- A container status terminated at time `t`. -/
def scenario_container (t : Int) : ContainerStatus :=
  { state := some { terminated := some { finished_at := some t } } }

/-- The pod status of the spec's grace-period scenario: phase Succeeded,
containers finishing at 36000 and 36005 seconds of day (10:00:00 and
10:00:05). -/
def specScenarioStatus : PodStatus :=
  { phase := some "Succeeded",
    container_statuses :=
      some [scenario_container 36000, scenario_container 36005] }

/-- The pod of the spec's grace-period scenario. -/
def specScenarioPod : Pod :=
  { metadata := some { name := "pod5" }, status := some specScenarioStatus }

/-- An environment holding one pod whose provider reports the caller is
NOT running inside an orchestrated cluster. -/
def outOfClusterEnv : K8sEnv :=
  { is_running_inside_kubernetes_cluster := false,
    pods := [{ metadata := some { name := "pod1" } }] }

/-- The same environment with the in-cluster report left at its default
(true). -/
def inClusterEnv : K8sEnv :=
  { pods := [{ metadata := some { name := "pod1" } }] }

/-! ## Helper lemmas -/

/-- Reading back a key just upserted into the run store. -/
theorem Db.read_store (db : Db) (p u : String) (r : RunRecord) :
    (db.store_run p u r).read_run p u = some r := by
  induction db with
  | nil => simp [Db.store_run, Db.read_run, List.find?]
  | cons kv rest ih =>
    by_cases h : kv.fst == (p, u)
    · simp [Db.store_run, h, Db.read_run, List.find?]
    · simp only [Db.store_run, h, if_neg, Bool.false_eq_true, if_false]
      simp only [Db.read_run, List.find?, h] at ih ⊢
      exact ih

/-- A record with a truthy state has a `status` dictionary. -/
theorem RunRecord.status_of_state (r : RunRecord) (s : String)
    (h : r.state = some s) : ∃ st : RunStatus, r.status = some st := by
  cases hst : r.status with
  | none => simp [RunRecord.state, hst, Option.getD] at h
  | some st => exact ⟨st, rfl⟩

/-- A record with a `status` dictionary is truthy. -/
theorem RunRecord.truthy_of_status (r : RunRecord) (st : RunStatus)
    (h : r.status = some st) : r.truthy = true := by
  simp [RunRecord.truthy, h]

/-- The state written by `setState`/`setLastUpdate`. -/
theorem RunRecord.state_setState_setLastUpdate (r : RunRecord)
    (s : Option String) (t : Int) :
    ((r.setState s).setLastUpdate t).state = s := by
  simp [RunRecord.setState, RunRecord.setLastUpdate, RunRecord.state]

/-- Every early return of `_ensure_run_state` reports "unchanged", stores
nothing and leaves the run store untouched. -/
theorem ensure_run_state_early_some (now debounce : Int) (db : Db)
    (run_state : Option String) (run1 : RunRecord) (res : EnsureStateResult)
    (h : ensure_run_state_early now debounce db run_state run1 = some res) :
    res.changed = false ∧ res.stored = none ∧ res.db = db := by
  simp only [ensure_run_state_early] at h
  repeat' split at h
  all_goals first
    | (injection h with h2; subst h2; exact ⟨rfl, rfl, rfl⟩)
    | (injection h)

/-- Any `_ensure_run_state` call that reports a change went through the
final write: it stored the updated record and upserted it into the run
store. -/
theorem ensure_run_state_changed (now debounce : Int) (db : Db)
    (project uid name : String) (run_state : Option String)
    (run : Option RunRecord) (search_run : Bool)
    (h : (ensure_run_state now debounce db project uid name run_state run
      search_run).changed = true) :
    ensure_run_state now debounce db project uid name run_state run
        search_run =
      (let run1 := ensure_run_state_run1 db project uid name run search_run
       let run2 := (run1.setState run_state).setLastUpdate now
       { changed := true, state := run_state, stored := some run2,
         db := db.store_run project uid run2 }) := by
  simp only [ensure_run_state] at h ⊢
  cases heq : ensure_run_state_early now debounce db run_state
      (ensure_run_state_run1 db project uid name run search_run) with
  | some res =>
    rw [heq] at h
    have := (ensure_run_state_early_some now debounce db run_state _ res
      heq).1
    simp [this] at h
  | none =>
    rfl

/-- When the run store holds a truthy record at (project, uid), it is the
record `_ensure_run_state` operates on. -/
theorem ensure_run_state_run1_found (db : Db) (project uid name : String)
    (run : Option RunRecord) (r : RunRecord) (st : RunStatus)
    (hread : db.read_run project uid = some r) (hst : r.status = some st) :
    ensure_run_state_run1 db project uid name run true = r := by
  simp [ensure_run_state_run1, hread,
    RunRecord.truthy_of_status r st hst]

/-- The stored-equals-observed early return of `_ensure_run_state`: no
write, `(False, run_state)`. -/
theorem ensure_run_state_idem (now debounce : Int) (db : Db)
    (project uid name : String) (s : String) (r : RunRecord)
    (hs : s ≠ "") (hread : db.read_run project uid = some r)
    (hstate : r.state = some s) :
    ensure_run_state now debounce db project uid name (some s) =
      { changed := false, state := some s, stored := none, db := db } := by
  obtain ⟨st, hst⟩ := RunRecord.status_of_state r s hstate
  have hrun1 := ensure_run_state_run1_found db project uid name none r st
    hread hst
  have hearly : ensure_run_state_early now debounce db (some s) r =
      some { changed := false, state := some s, stored := none, db := db } := by
    simp [ensure_run_state_early, hstate, truthyStr, hs]
  simp [ensure_run_state, hrun1, hearly]

/-- On well-formed container statuses, the completion-time scan of
`_resolve_pod_status_info` computes the running maximum of the completion
times. -/
theorem last_completion_loop_eq_spec (css : List ContainerStatus)
    (hwf : containers_wellformed css = true) :
    ∀ acc : Option Int,
      last_completion_loop css acc =
        Except.ok (spec_max_completion acc (completion_times css)) := by
  induction css with
  | nil => intro acc; rfl
  | cons cs rest ih =>
    simp only [containers_wellformed, List.all_cons, Bool.and_eq_true]
      at hwf
    intro acc
    cases hterm : (cs.state.getD {}).terminated with
    | none =>
      simp only [last_completion_loop, hterm, completion_times,
        List.filterMap_cons, Option.bind_eq_bind, hterm, Option.none_bind]
      exact ih hwf.2 acc
    | some ti =>
      obtain ⟨c, hc⟩ : ∃ c, ti.finished_at = some c := by
        have := hwf.1
        rw [hterm] at this
        exact Option.isSome_iff_exists.mp this
      have hrest := ih hwf.2
      cases acc with
      | none =>
        simp only [last_completion_loop, hterm, hc, completion_times,
          List.filterMap_cons, Option.bind_eq_bind, Option.some_bind]
        exact hrest (some c)
      | some l =>
        simp only [last_completion_loop, hterm, hc, completion_times,
          List.filterMap_cons, Option.bind_eq_bind, Option.some_bind]
        by_cases hlt : l < c
        · rw [if_pos hlt, hrest (some c)]
          show _ = Except.ok (spec_max_completion (some (max l c)) _)
          rw [max_eq_right (le_of_lt hlt)]
          rfl
        · rw [if_neg hlt, hrest (some l)]
          show _ = Except.ok (spec_max_completion (some (max l c)) _)
          rw [max_eq_left (by omega)]
          rfl

/-- The running maximum dominates every element of the list and the
seed. -/
theorem spec_max_completion_ge (l : List Int) :
    ∀ (acc : Option Int) (m : Int), spec_max_completion acc l = some m →
      (∀ t ∈ l, t ≤ m) ∧ (∀ a, acc = some a → a ≤ m) := by
  induction l with
  | nil =>
    intro acc m h
    exact ⟨by simp, fun a ha => by rw [ha] at h; injection h with h2; omega⟩
  | cons c rest ih =>
    intro acc m h
    cases acc with
    | none =>
      have hih := ih (some c) m h
      have hc : c ≤ m := hih.2 c rfl
      refine ⟨?_, ?_⟩
      · intro t ht
        rcases List.mem_cons.mp ht with rfl | ht2
        · exact hc
        · exact hih.1 t ht2
      · intro a ha
        exact absurd ha (by simp)
    | some a0 =>
      have hih := ih (some (max a0 c)) m h
      have hmc : max a0 c ≤ m := hih.2 (max a0 c) rfl
      refine ⟨?_, ?_⟩
      · intro t ht
        rcases List.mem_cons.mp ht with rfl | ht2
        · omega
        · exact hih.1 t ht2
      · intro a ha
        injection ha with ha2
        subst ha2
        omega

/-- The running maximum is an element of the list or the seed itself. -/
theorem spec_max_completion_mem (l : List Int) :
    ∀ (acc : Option Int) (m : Int), spec_max_completion acc l = some m →
      m ∈ l ∨ acc = some m := by
  induction l with
  | nil =>
    intro acc m h
    exact Or.inr h
  | cons c rest ih =>
    intro acc m h
    cases acc with
    | none =>
      rcases ih (some c) m h with hmem | hstep
      · exact Or.inl (List.mem_cons_of_mem c hmem)
      · injection hstep with h2
        exact Or.inl (by rw [← h2]; exact List.mem_cons_self c rest)
    | some a =>
      rcases ih (some (max a c)) m h with hmem | hstep
      · exact Or.inl (List.mem_cons_of_mem c hmem)
      · injection hstep with h2
        rcases max_choice a c with hmax | hmax
        · exact Or.inr (by rw [← h2, hmax])
        · exact Or.inl (by rw [← h2, hmax]; exact List.mem_cons_self c rest)

/-- The deleted list of the pod-deletion loop is exactly the pods passing
the selection decision, independent of the store threaded through. -/
theorem delete_pod_resources_loop_deleted (now debounce grace : Int)
    (force : Bool) (policy : KindPolicy) :
    ∀ (pods : List Pod) (db : Db),
      (delete_pod_resources_loop now debounce grace force policy pods
        db).1 =
        pods.filter (fun p => pod_deletion_eligible now grace force p) := by
  intro pods
  induction pods with
  | nil => intro db; rfl
  | cons pod rest ih =>
    intro db
    cases hres : resolve_pod_status_info pod with
    | error e =>
      have helig : pod_deletion_eligible now grace force pod = false := by
        simp [pod_deletion_eligible, hres]
      simp [delete_pod_resources_loop, hres, List.filter_cons, helig, ih db]
    | ok st =>
      obtain ⟨inT, lu, rs⟩ := st
      by_cases hb1 : (!force && !inT) = true
      · have helig : pod_deletion_eligible now grace force pod = false := by
          simp [pod_deletion_eligible, hres, hb1]
        simp [delete_pod_resources_loop, hres, hb1, List.filter_cons,
          helig, ih]
      · cases lu with
        | none =>
          have helig : pod_deletion_eligible now grace force pod = true := by
            simp [pod_deletion_eligible, hres, hb1]
          simp [delete_pod_resources_loop, hres, hb1, List.filter_cons,
            helig, ih]
        | some l =>
          by_cases hb2 : (!force && decide (l + grace > now)) = true
          · have helig :
                pod_deletion_eligible now grace force pod = false := by
              simp [pod_deletion_eligible, hres, hb1, hb2]
            simp [delete_pod_resources_loop, hres, hb1, hb2,
              List.filter_cons, helig, ih]
          · have helig :
                pod_deletion_eligible now grace force pod = true := by
              simp [pod_deletion_eligible, hres, hb1, hb2]
            simp [delete_pod_resources_loop, hres, hb1, hb2,
              List.filter_cons, helig, ih]

/-! ## Claims -/

/-- C10: when the Run-State Reconciler is asked to reconcile a state for a
(project, uid) absent from the Run Store, it does not fail: it creates a
brand-new record whose metadata is exactly (project, name, uid), sets its
state to the observed run_state and last_update to now, writes it, and
returns (changed=true, run_state). -/
theorem C10_reconciler_creates_missing_run (now debounce : Int) (db : Db)
    (project uid name : String) (run_state : Option String)
    (h : db.read_run project uid = none) :
    ensure_run_state now debounce db project uid name run_state =
      { changed := true, state := run_state,
        stored := some
          { metadata := some { project := some project, name := some name,
                               uid := some uid },
            status := some { state := run_state, last_update := some now } },
        db := db.store_run project uid
          { metadata := some { project := some project, name := some name,
                               uid := some uid },
            status := some { state := run_state, last_update := some now } } }
    := by
  have hrun1 : ensure_run_state_run1 db project uid name none true =
      { metadata := some { project := some project, name := some name,
                           uid := some uid } } := by
    simp [ensure_run_state_run1, h, RunRecord.truthy]
  have hearly : ensure_run_state_early now debounce db run_state
      { metadata := some { project := some project, name := some name,
                           uid := some uid } } = none := by
    simp [ensure_run_state_early, RunRecord.state, truthyStr]
  simp [ensure_run_state, hrun1, hearly, RunRecord.setState,
    RunRecord.setLastUpdate]

/-- C10 witness: creating a run for an unknown (project, uid) on an empty
store. -/
theorem C10_reconciler_creates_missing_run_witness :
    ensure_run_state 1000 30 [] "p" "u" "n" (some "running") =
      { changed := true, state := some "running",
        stored := some
          { metadata := some { project := some "p", name := some "n",
                               uid := some "u" },
            status := some { state := some "running",
                             last_update := some 1000 } },
        db := [(("p", "u"),
          { metadata := some { project := some "p", name := some "n",
                               uid := some "u" },
            status := some { state := some "running",
                             last_update := some 1000 } })] } := by
  have h := C10_reconciler_creates_missing_run 1000 30 [] "p" "u" "n"
    (some "running") (by decide)
  simpa [Db.store_run] using h

/-- C6: a run whose stored state is terminal, reconciled with a different
terminal state, is overwritten: the reconciler reports a change, stores
the record with the new state and `last_update = now`, and upserts it. -/
theorem C6_terminal_override (now debounce : Int) (db : Db)
    (project uid name : String) (r : RunRecord) (t s : String)
    (hread : db.read_run project uid = some r)
    (hstate : r.state = some t)
    (ht : t ∈ RunStates.terminal_states)
    (hs : s ∈ RunStates.terminal_states)
    (hne : s ≠ t) :
    ensure_run_state now debounce db project uid name (some s) =
      { changed := true, state := some s,
        stored := some ((r.setState (some s)).setLastUpdate now),
        db := db.store_run project uid
          ((r.setState (some s)).setLastUpdate now) }
    ∧ ((r.setState (some s)).setLastUpdate now).state = some s
    ∧ ((r.setState (some s)).setLastUpdate now).last_update = some now := by
  obtain ⟨st, hst⟩ := RunRecord.status_of_state r t hstate
  have hrun1 := ensure_run_state_run1_found db project uid name none r st
    hread hst
  have ht' : t ≠ "" := by
    rintro rfl
    exact absurd ht (by decide)
  have hts : (some t == some s) = false := by
    simp
    exact fun hts => hne hts.symm
  have hearly : ensure_run_state_early now debounce db (some s) r = none := by
    simp [ensure_run_state_early, hstate, truthyStr, ht', hts, optMem, ht,
      hs]
  refine ⟨?_, ?_, ?_⟩
  · simp [ensure_run_state, hrun1, hearly]
  · exact RunRecord.state_setState_setLastUpdate r (some s) now
  · simp [RunRecord.setState, RunRecord.setLastUpdate,
      RunRecord.last_update]

/-- C6 witness: a run stored as completed, observed as error. -/
theorem C6_terminal_override_witness :
    (let r : RunRecord :=
      { metadata := some { project := some "p", name := some "n",
                           uid := some "u" },
        status := some { state := some "completed", last_update := some 0 } }
     ensure_run_state 1000 30 [(("p", "u"), r)] "p" "u" "n" (some "error") =
      { changed := true, state := some "error",
        stored := some ((r.setState (some "error")).setLastUpdate 1000),
        db := Db.store_run [(("p", "u"), r)] "p" "u"
          ((r.setState (some "error")).setLastUpdate 1000) }) := by
  exact (C6_terminal_override 1000 30 _ "p" "u" "n" _ "completed" "error"
    (by decide) (by decide) (by decide) (by decide) (by decide)).1

/-- C7: if the stored state already equals the newly observed run state,
the reconciler performs no write and returns (changed=false, that state);
and after any application that did write, re-applying the same observed
state is a no-op — so two applications of one observed state perform
exactly the first application's write and nothing more. -/
theorem C7_idempotence :
    (∀ (now debounce : Int) (db : Db) (project uid name : String)
       (s : String) (r : RunRecord),
       s ≠ "" → db.read_run project uid = some r → r.state = some s →
       ensure_run_state now debounce db project uid name (some s) =
         { changed := false, state := some s, stored := none, db := db })
    ∧ (∀ (now now2 debounce debounce2 : Int) (db : Db)
         (project uid name : String) (s : String), s ≠ "" →
         (ensure_run_state now debounce db project uid name (some s)).changed
           = true →
         ensure_run_state now2 debounce2
             (ensure_run_state now debounce db project uid name (some s)).db
             project uid name (some s) =
           { changed := false, state := some s, stored := none,
             db := (ensure_run_state now debounce db project uid name
               (some s)).db }) := by
  constructor
  · exact fun now debounce db project uid name s r hs hread hstate =>
      ensure_run_state_idem now debounce db project uid name s r hs hread
        hstate
  · intro now now2 debounce debounce2 db project uid name s hs hchanged
    have hw := ensure_run_state_changed now debounce db project uid name
      (some s) none true hchanged
    rw [hw]
    set run2 := ((ensure_run_state_run1 db project uid name none
      true).setState (some s)).setLastUpdate now with hrun2
    have hread2 : (db.store_run project uid run2).read_run project uid =
        some run2 := Db.read_store db project uid run2
    have hstate2 : run2.state = some s :=
      RunRecord.state_setState_setLastUpdate _ (some s) now
    exact ensure_run_state_idem now2 debounce2 _ project uid name s run2
      hs hread2 hstate2

/-- C7 witness: reconciling "running" into a run already in state
"running" is a no-op; and after a first application that wrote, the
second application of the same state is a no-op. -/
theorem C7_idempotence_witness :
    (ensure_run_state 1000 30
        [(("p", "u"),
          { metadata := some { project := some "p", uid := some "u" },
            status := some { state := some "running" } })]
        "p" "u" "n" (some "running") =
      { changed := false, state := some "running", stored := none,
        db := [(("p", "u"),
          { metadata := some { project := some "p", uid := some "u" },
            status := some { state := some "running" } })] })
    ∧ (ensure_run_state 2000 30
        (ensure_run_state 1000 30 [] "p" "u" "n" (some "running")).db
        "p" "u" "n" (some "running") =
      { changed := false, state := some "running", stored := none,
        db := (ensure_run_state 1000 30 [] "p" "u" "n"
          (some "running")).db }) := by
  constructor
  · exact C7_idempotence.1 1000 30 _ "p" "u" "n" "running"
      { metadata := some { project := some "p", uid := some "u" },
        status := some { state := some "running" } }
      (by decide) (by decide) (by decide)
  · exact C7_idempotence.2 1000 2000 30 30 [] "p" "u" "n" "running"
      (by decide) (by decide)

/-- C1 as stated is false: a run stored in the terminal state "completed"
whose last_update is older than the monitoring debounce interval, observed
as the non-terminal "running", has its stored state changed to "running"
by the reconciler — the non-terminal observation is not ignored for stale
records. -/
theorem C1_counterexample :
    ("completed" ∈ RunStates.terminal_states)
    ∧ ("running" ∉ RunStates.terminal_states)
    ∧ (let r : RunRecord :=
        { metadata := some { project := some "p", name := some "n",
                             uid := some "u" },
          status := some { state := some "completed",
                           last_update := some 0 } }
       let res := ensure_run_state 1000 30 [(("p", "u"), r)] "p" "u" "n"
         (some "running")
       res.changed = true
       ∧ (res.db.read_run "p" "u").map RunRecord.state =
           some (some "running")
       ∧ some "running" ≠ some "completed") := by
  refine ⟨by decide, by decide, by decide, by decide, by decide⟩

/-- C1 amended: for a run stored in a terminal state, a newly observed
non-terminal state is ignored (no write, state unchanged) only when the
run's last_update is set and newer than now minus the monitoring debounce
interval; when last_update is unset or at least that old, the reconciler
overwrites the stored terminal state with the observed non-terminal
state. -/
theorem C1_terminal_lock_debounced (now debounce : Int) (db : Db)
    (project uid name : String) (r : RunRecord) (t s : String)
    (hread : db.read_run project uid = some r)
    (hstate : r.state = some t)
    (ht : t ∈ RunStates.terminal_states)
    (hs : s ∉ RunStates.terminal_states) :
    (∀ lu, r.last_update = some lu → lu > now - debounce →
      ensure_run_state now debounce db project uid name (some s) =
        { changed := false, state := some s, stored := none, db := db })
    ∧ (∀ lu, r.last_update = some lu → lu ≤ now - debounce →
      ensure_run_state now debounce db project uid name (some s) =
        { changed := true, state := some s,
          stored := some ((r.setState (some s)).setLastUpdate now),
          db := db.store_run project uid
            ((r.setState (some s)).setLastUpdate now) })
    ∧ (r.last_update = none →
      ensure_run_state now debounce db project uid name (some s) =
        { changed := true, state := some s,
          stored := some ((r.setState (some s)).setLastUpdate now),
          db := db.store_run project uid
            ((r.setState (some s)).setLastUpdate now) }) := by
  obtain ⟨st, hst⟩ := RunRecord.status_of_state r t hstate
  have hrun1 := ensure_run_state_run1_found db project uid name none r st
    hread hst
  have ht' : t ≠ "" := by
    rintro rfl
    exact absurd ht (by decide)
  have hts : (some t == some s) = false := by
    simp
    rintro rfl
    exact hs ht
  refine ⟨?_, ?_, ?_⟩
  · intro lu hlu hrecent
    have hearly : ensure_run_state_early now debounce db (some s) r =
        some { changed := false, state := some s, stored := none,
               db := db } := by
      simp [ensure_run_state_early, hstate, truthyStr, ht', hts, optMem,
        ht, hs, RunRecord.last_update] at hlu ⊢
      simp [hlu, hrecent]
    simp [ensure_run_state, hrun1, hearly]
  · intro lu hlu hold
    have hearly : ensure_run_state_early now debounce db (some s) r =
        none := by
      simp [ensure_run_state_early, hstate, truthyStr, ht', hts, optMem,
        ht, hs, RunRecord.last_update] at hlu ⊢
      simp [hlu]
      omega
    simp [ensure_run_state, hrun1, hearly]
  · intro hnone
    have hearly : ensure_run_state_early now debounce db (some s) r =
        none := by
      simp [ensure_run_state_early, hstate, truthyStr, ht', hts, optMem,
        ht, hs, RunRecord.last_update] at hnone ⊢
      simp [hnone]
    simp [ensure_run_state, hrun1, hearly]

/-- C1 amended witness: with debounce 30 and now 1000, a completed run
last updated at 990 keeps its state against an observed "running", while
one last updated at 0 is overwritten. -/
theorem C1_terminal_lock_debounced_witness :
    (ensure_run_state 1000 30
        [(("p", "u"),
          { metadata := some { project := some "p", uid := some "u" },
            status := some { state := some "completed",
                             last_update := some 990 } })]
        "p" "u" "n" (some "running") =
      { changed := false, state := some "running", stored := none,
        db := [(("p", "u"),
          { metadata := some { project := some "p", uid := some "u" },
            status := some { state := some "completed",
                             last_update := some 990 } })] })
    ∧ (ensure_run_state 1000 30
        [(("p", "u"),
          { metadata := some { project := some "p", uid := some "u" },
            status := some { state := some "completed",
                             last_update := some 0 } })]
        "p" "u" "n" (some "running")).changed = true := by
  constructor
  · exact (C1_terminal_lock_debounced 1000 30 _ "p" "u" "n"
      { metadata := some { project := some "p", uid := some "u" },
        status := some { state := some "completed",
                         last_update := some 990 } }
      "completed" "running" (by decide) (by decide) (by decide)
      (by decide)).1 990 (by decide) (by decide)
  · rw [(C1_terminal_lock_debounced 1000 30 _ "p" "u" "n"
      { metadata := some { project := some "p", uid := some "u" },
        status := some { state := some "completed",
                         last_update := some 0 } }
      "completed" "running" (by decide) (by decide) (by decide)
      (by decide)).2.1 0 (by decide) (by decide)]

/-- C4 as stated is false in its sentinel: the reason written for an
orphaned run is "A runtime resource related to this run could not be
found", not "no matching compute resource found".  At a concrete orphaned
run (non-terminal, no matching resource, last_update older than the
debounce window) the written record carries the former string. -/
theorem C4_counterexample :
    ("running" ∈ RunStates.non_terminal_states)
    ∧ (let r : RunRecord :=
        { metadata := some { project := some "p", name := some "n",
                             uid := some "u" },
          status := some { state := some "running",
                           last_update := some 0 } }
       let res := ensure_run_not_stuck_on_non_terminal_state 1000 600 []
         "p" "u" r []
       (res.1).map (fun rr => (rr.status.getD {}).reason) =
           some (some "A runtime resource related to this run could not be found")
       ∧ (res.1).map RunRecord.state = some (some "error")
       ∧ "A runtime resource related to this run could not be found" ≠
           "no matching compute resource found") := by
  exact ⟨by decide, by decide, by decide, by decide⟩

/-- C4 amended: for a run in a non-terminal state with no matching
resource in the listing — when last_update is at least the debounce
interval old, the run is written with state=error, the reason sentinel
"A runtime resource related to this run could not be found" and
last_update=now; when last_update is newer than now minus the interval,
nothing is written; when last_update is unset, only last_update is set to
now, with no state change. -/
theorem C4_orphan_debounce (now debounce : Int) (db : Db)
    (project uid : String) (r : RunRecord) (s : String)
    (m : ResourcesMap)
    (hstate : r.state = some s)
    (hs : s ∈ RunStates.non_terminal_states)
    (hnores : (!m.isEmpty && m.hasUid project uid) = false) :
    (∀ lu, r.last_update = some lu → lu ≤ now - debounce →
      ensure_run_not_stuck_on_non_terminal_state now debounce db project
          uid r m =
        (some (((r.setState (some RunStates.error)).setReason
            orphanReason).setLastUpdate now),
         db.store_run project uid (((r.setState
            (some RunStates.error)).setReason orphanReason).setLastUpdate
            now)))
    ∧ (∀ lu, r.last_update = some lu → lu > now - debounce →
      ensure_run_not_stuck_on_non_terminal_state now debounce db project
          uid r m = (none, db))
    ∧ (r.last_update = none →
      ensure_run_not_stuck_on_non_terminal_state now debounce db project
          uid r m =
        (some (r.setLastUpdate now),
         db.store_run project uid (r.setLastUpdate now))) := by
  have hs' : s ≠ "" := by
    rintro rfl
    exact absurd hs (by decide)
  refine ⟨?_, ?_, ?_⟩
  · intro lu hlu hold
    have hrecent : ¬(lu > now - debounce) := by omega
    simp [ensure_run_not_stuck_on_non_terminal_state, hstate, truthyStr,
      hs', optMem, hs, hnores, hlu, hrecent]
  · intro lu hlu hrecent
    simp [ensure_run_not_stuck_on_non_terminal_state, hstate, truthyStr,
      hs', optMem, hs, hnores, hlu, hrecent]
  · intro hnone
    simp [ensure_run_not_stuck_on_non_terminal_state, hstate, truthyStr,
      hs', optMem, hs, hnores, hnone]

/-- C4 amended witness: with debounce 600 and now 1000 — a running run
last updated at 400 is condemned with the orphan reason, one updated at
900 is untouched, and one with no last_update only gains the timestamp. -/
theorem C4_orphan_debounce_witness :
    (ensure_run_not_stuck_on_non_terminal_state 1000 600 [] "p" "u"
        { metadata := some { project := some "p", uid := some "u" },
          status := some { state := some "running",
                           last_update := some 400 } } [] =
      (some { metadata := some { project := some "p", uid := some "u" },
              status := some { state := some "error",
                               last_update := some 1000,
                               reason := some orphanReason } },
       [(("p", "u"),
         { metadata := some { project := some "p", uid := some "u" },
           status := some { state := some "error",
                            last_update := some 1000,
                            reason := some orphanReason } })]))
    ∧ (ensure_run_not_stuck_on_non_terminal_state 1000 600 [] "p" "u"
        { metadata := some { project := some "p", uid := some "u" },
          status := some { state := some "running",
                           last_update := some 900 } } [] = (none, []))
    ∧ (ensure_run_not_stuck_on_non_terminal_state 1000 600 [] "p" "u"
        { metadata := some { project := some "p", uid := some "u" },
          status := some { state := some "running" } } [] =
      (some { metadata := some { project := some "p", uid := some "u" },
              status := some { state := some "running",
                               last_update := some 1000 } },
       [(("p", "u"),
         { metadata := some { project := some "p", uid := some "u" },
           status := some { state := some "running",
                            last_update := some 1000 } })])) := by
  refine ⟨?_, ?_, ?_⟩
  · have h := (C4_orphan_debounce 1000 600 [] "p" "u"
      { metadata := some { project := some "p", uid := some "u" },
        status := some { state := some "running",
                         last_update := some 400 } } "running" []
      (by decide) (by decide) (by decide)).1 400 (by decide) (by decide)
    simpa [RunRecord.setState, RunRecord.setReason, RunRecord.setLastUpdate,
      Db.store_run] using h
  · exact (C4_orphan_debounce 1000 600 [] "p" "u"
      { metadata := some { project := some "p", uid := some "u" },
        status := some { state := some "running",
                         last_update := some 900 } } "running" []
      (by decide) (by decide) (by decide)).2.1 900 (by decide) (by decide)
  · have h := (C4_orphan_debounce 1000 600 [] "p" "u"
      { metadata := some { project := some "p", uid := some "u" },
        status := some { state := some "running" } } "running" []
      (by decide) (by decide) (by decide)).2.2 (by decide)
    simpa [RunRecord.setLastUpdate, Db.store_run] using h

/-- C9: the claim is right and the code is wrong — on a listing in which
two runs share (project, uid), the duplicate branch of
`_list_runs_for_monitoring` evaluates `current_run.get(["metadata"])`,
passing an unhashable list as a dictionary key, so the scan raises a
`TypeError` instead of logging and keeping the first; the whole
`monitor_runs` pass aborts with that error. -/
theorem C9_duplicate_run_raises :
    (let r : RunRecord :=
      { metadata := some { project := some "p", uid := some "u1" } }
     list_runs_for_monitoring [r, r] =
       Except.error "TypeError: unhashable type: list")
    ∧ (let r : RunRecord :=
        { metadata := some { project := some "p", uid := some "u1" } }
       (monitor_runs 1000 30 600 {} { listed_runs := [r, r] } []).2.2 =
         some "TypeError: unhashable type: list") := by
  exact ⟨by decide, by decide⟩

/-- C8 as stated is false: resolving the status of a pod descriptor whose
payload is missing the `status` field raises a `KeyError` rather than
returning the degraded (not terminal, no timestamp, no state) result. -/
theorem C8_counterexample :
    resolve_pod_status_info { metadata := some { name := "pod1" } } =
      Except.error "KeyError: status"
    ∧ resolve_pod_status_info { metadata := some { name := "pod1" } } ≠
        Except.ok (false, none, none) := by
  exact ⟨by decide, by decide⟩

/-- C8 amended: the pod Status Resolver raises a `KeyError` on a payload
missing `status` or `phase` (only the base CRD resolver returns the
degraded (false, none, none) result); the exception is contained by the
Deletion Engine's per-resource handler — a pod whose status resolution
raises is skipped and the remaining resources are processed exactly as if
it were absent. -/
theorem C8_status_resolver_raises :
    (∀ pod : Pod, pod.status = none →
      resolve_pod_status_info pod = Except.error "KeyError: status")
    ∧ (∀ (pod : Pod) (st : PodStatus), pod.status = some st →
        st.phase = none →
        resolve_pod_status_info pod = Except.error "KeyError: phase")
    ∧ (∀ crd_object : Pod,
        resolve_crd_object_status_info crd_object = (false, none, none))
    ∧ (∀ (now debounce grace : Int) (force : Bool) (policy : KindPolicy)
         (pod : Pod) (rest : List Pod) (db : Db) (e : String),
        resolve_pod_status_info pod = Except.error e →
        delete_pod_resources_loop now debounce grace force policy
            (pod :: rest) db =
          delete_pod_resources_loop now debounce grace force policy rest
            db) := by
  refine ⟨?_, ?_, ?_, ?_⟩
  · intro pod hp
    simp [resolve_pod_status_info, hp]
  · intro pod st hp hphase
    simp [resolve_pod_status_info, hp, hphase]
  · intro crd_object
    rfl
  · intro now debounce grace force policy pod rest db e hres
    simp [delete_pod_resources_loop, hres]

/-- C8 amended witness: a pod without `status`, one without `phase`, the
base CRD resolver, and a deletion pass in which the malformed pod is
skipped while the rest proceeds. -/
theorem C8_status_resolver_raises_witness :
    (resolve_pod_status_info { metadata := some { name := "bad" } } =
      Except.error "KeyError: status")
    ∧ (resolve_pod_status_info
        { metadata := some { name := "bad2" }, status := some {} } =
      Except.error "KeyError: phase")
    ∧ (resolve_crd_object_status_info { metadata := some { name := "c" } }
        = (false, none, none))
    ∧ (delete_pod_resources_loop 1000 30 60 false {}
        [{ metadata := some { name := "bad" } },
         { metadata := some { name := "ok" },
           status := some { phase := some "Failed" } }] [] =
      delete_pod_resources_loop 1000 30 60 false {}
        [{ metadata := some { name := "ok" },
           status := some { phase := some "Failed" } }] []) := by
  refine ⟨?_, ?_, ?_, ?_⟩
  · exact C8_status_resolver_raises.1 { metadata := some { name := "bad" } }
      (by decide)
  · exact C8_status_resolver_raises.2.1
      { metadata := some { name := "bad2" }, status := some {} } {}
      (by decide) (by decide)
  · exact C8_status_resolver_raises.2.2.1
      { metadata := some { name := "c" } }
  · exact C8_status_resolver_raises.2.2.2 1000 30 60 false {}
      { metadata := some { name := "bad" } }
      [{ metadata := some { name := "ok" },
         status := some { phase := some "Failed" } }] []
      "KeyError: status" (by decide)

/-- C3 as stated is false: a deletion-eligible pod of a coupled kind whose
uid cannot be resolved (and which the kind does not expect) is still
deleted — only the pre-deletion run actions abort with a `ValueError`,
which the deletion loop catches before proceeding to delete the pod. -/
theorem C3_counterexample :
    (let pod : Pod :=
      { metadata := some { name := "pod3", labels := some {} },
        status := some { phase := some "Failed" } }
     let policy : KindPolicy :=
       { kind := "job", are_resources_coupled_to_run_object := true }
     pre_deletion_runtime_resource_run_actions 1000 30 [] false pod
         (some "error") =
       Except.error "ValueError: Could not resolve run uid from runtime resource"
     ∧ (delete_pod_resources 1000 30 60 false policy { pods := [pod] }
         "sel" []).1 = [pod]
     ∧ Effect.deletePod "pod3" ∈
         (delete_pod_resources 1000 30 60 false policy { pods := [pod] }
           "sel" []).2.2) := by
  exact ⟨by decide, by decide, by decide⟩

/-- C3 amended: for a deletion-eligible resource of a coupled kind whose
run uid cannot be resolved and whose kind does not expect uid-less
resources, only the pre-deletion run actions abort (a `ValueError` is
raised and caught, so no state reconciliation and no log capture happen
for it); the resource itself is still deleted, the run store is untouched
by it, and processing continues with the other resources. -/
theorem C3_predeletion_abort (now debounce grace : Int) (force : Bool)
    (policy : KindPolicy) (db : Db) (pod : Pod) (rest : List Pod)
    (st : Bool × Option Int × Option String)
    (hcoupled : policy.are_resources_coupled_to_run_object = true)
    (hexpect : policy.expect_pods_without_uid = false)
    (hnouid :
      truthyStr (((pod.metadata.getD {}).labels).getD {}).mlrun_uid = false)
    (hres : resolve_pod_status_info pod = Except.ok st)
    (helig : pod_deletion_eligible now grace force pod = true) :
    pre_deletion_runtime_resource_run_actions now debounce db false pod
        st.2.2 =
      Except.error "ValueError: Could not resolve run uid from runtime resource"
    ∧ delete_pod_resources_loop now debounce grace force policy
        (pod :: rest) db =
      (pod :: (delete_pod_resources_loop now debounce grace force policy
          rest db).1,
       (delete_pod_resources_loop now debounce grace force policy rest
          db).2.1,
       Effect.deletePod (pod.metadata.getD {}).name ::
         (delete_pod_resources_loop now debounce grace force policy rest
           db).2.2) := by
  have hpre : pre_deletion_runtime_resource_run_actions now debounce db
      false pod st.2.2 =
      Except.error "ValueError: Could not resolve run uid from runtime resource" := by
    simp [pre_deletion_runtime_resource_run_actions,
      resolve_runtime_resource_run, hnouid]
  refine ⟨hpre, ?_⟩
  obtain ⟨inT, lu, rs⟩ := st
  rcases hrec : delete_pod_resources_loop now debounce grace force policy
    rest db with ⟨dRest, db2, effsRest⟩
  unfold pod_deletion_eligible at helig
  rw [hres] at helig
  cases force with
  | true =>
    simp [delete_pod_resources_loop, hres, hcoupled, hexpect, hpre, hrec]
  | false =>
    cases inT with
    | false => simp at helig
    | true =>
      cases lu with
      | none =>
        simp [delete_pod_resources_loop, hres, hcoupled, hexpect, hpre,
          hrec]
      | some l =>
        simp at helig
        simp [delete_pod_resources_loop, hres, hcoupled, hexpect, hpre,
          hrec, helig]
        rw [if_neg (by omega)]
        simp [hrec]

/-- C3 amended witness: a terminal uid-less pod of a coupled kind is
deleted while its pre-deletion actions abort. -/
theorem C3_predeletion_abort_witness :
    (pre_deletion_runtime_resource_run_actions 1000 30 [] false
        { metadata := some { name := "pod3", labels := some {} },
          status := some { phase := some "Failed" } }
        (some "error") =
      Except.error "ValueError: Could not resolve run uid from runtime resource")
    ∧ delete_pod_resources_loop 1000 30 60 false
        { kind := "job", are_resources_coupled_to_run_object := true }
        [{ metadata := some { name := "pod3", labels := some {} },
           status := some { phase := some "Failed" } }] [] =
      ([{ metadata := some { name := "pod3", labels := some {} },
          status := some { phase := some "Failed" } }], [],
       [Effect.deletePod "pod3"]) := by
  have h := C3_predeletion_abort 1000 30 60 false
    { kind := "job", are_resources_coupled_to_run_object := true } []
    { metadata := some { name := "pod3", labels := some {} },
      status := some { phase := some "Failed" } }
    [] (true, none, some "error") (by decide) (by decide) (by decide)
    (by decide) (by decide)
  exact ⟨h.1, by rw [h.2]; decide⟩

/-- C5: with force=false a pod is selected for deletion by the Deletion
Engine if and only if its status resolves to a terminal phase and its
terminal-since timestamp is unknown or at least grace_period seconds
before now; the deleted set of a pass is exactly the pods passing this
decision; and for a well-formed terminal pod the timestamp is the maximum
(latest) container-completion time across all of the pod's containers. -/
theorem C5_grace_period_filter :
    (∀ (now grace : Int) (pod : Pod) (inT : Bool) (ts : Option Int)
       (rs : Option String),
      resolve_pod_status_info pod = Except.ok (inT, ts, rs) →
      (pod_deletion_eligible now grace false pod = true ↔
        (inT = true ∧ (ts = none ∨ ∃ x, ts = some x ∧ grace ≤ now - x))))
    ∧ (∀ (now debounce grace : Int) (policy : KindPolicy)
         (pods : List Pod) (db : Db) (p : Pod),
        p ∈ (delete_pod_resources_loop now debounce grace false policy
            pods db).1 ↔
          (p ∈ pods ∧ pod_deletion_eligible now grace false p = true))
    ∧ (∀ (pod : Pod) (st : PodStatus) (ph : String),
        pod.status = some st → st.phase = some ph →
        ph ∈ PodPhases.terminal_phases →
        containers_wellformed (st.container_statuses.getD []) = true →
        resolve_pod_status_info pod =
          Except.ok (true,
            spec_max_completion none
              (completion_times (st.container_statuses.getD [])),
            PodPhases.pod_phase_to_run_state ph)
        ∧ (completion_times (st.container_statuses.getD []) = [] →
            spec_max_completion none
              (completion_times (st.container_statuses.getD [])) = none)
        ∧ (∀ m, spec_max_completion none
              (completion_times (st.container_statuses.getD [])) =
                some m →
            m ∈ completion_times (st.container_statuses.getD [])
            ∧ ∀ t ∈ completion_times (st.container_statuses.getD []),
                t ≤ m)) := by
  refine ⟨?_, ?_, ?_⟩
  · intro now grace pod inT ts rs hres
    cases inT with
    | false =>
      have : pod_deletion_eligible now grace false pod = false := by
        simp [pod_deletion_eligible, hres]
      simp [this]
    | true =>
      cases ts with
      | none =>
        have : pod_deletion_eligible now grace false pod = true := by
          simp [pod_deletion_eligible, hres]
        simp [this]
      | some x =>
        by_cases hx : x + grace > now
        · have : pod_deletion_eligible now grace false pod = false := by
            simp [pod_deletion_eligible, hres, hx]
          simp [this]
          omega
        · have : pod_deletion_eligible now grace false pod = true := by
            simp [pod_deletion_eligible, hres]
            omega
          simp [this]
          omega
  · intro now debounce grace policy pods db p
    rw [delete_pod_resources_loop_deleted now debounce grace false policy
      pods db]
    simp [List.mem_filter]
  · intro pod st ph hst hph hterm hwf
    have hloop := last_completion_loop_eq_spec
      (st.container_statuses.getD []) hwf none
    refine ⟨?_, ?_, ?_⟩
    · simp [resolve_pod_status_info, hst, hph, hterm, hloop]
    · intro hempty
      rw [hempty]
      rfl
    · intro m hm
      refine ⟨?_, ?_⟩
      · rcases spec_max_completion_mem _ none m hm with hmem | habs
        · exact hmem
        · exact absurd habs (by simp)
      · exact fun t ht => (spec_max_completion_ge _ none m hm).1 t ht

/-- C5 witness: the spec's scenario — containers finishing at 36000 and
36005 (10:00:00 and 10:00:05 as seconds of day), grace 60s: not eligible
at 36030, eligible at 36070 and exactly at the 36065 threshold; the pod is
in the deleted set of a pass at 36070; and its terminal-since is the max,
36005. -/
theorem C5_grace_period_filter_witness :
    (pod_deletion_eligible 36030 60 false specScenarioPod = false)
    ∧ (pod_deletion_eligible 36070 60 false specScenarioPod = true)
    ∧ (pod_deletion_eligible 36065 60 false specScenarioPod = true)
    ∧ (specScenarioPod ∈
        (delete_pod_resources_loop 36070 30 60 false {} [specScenarioPod]
          []).1)
    ∧ (resolve_pod_status_info specScenarioPod =
        Except.ok (true, some 36005, some "completed")) := by
  have h1 := C5_grace_period_filter.1 36030 60 specScenarioPod
    true (some 36005) (some "completed") (by decide)
  have h2 := C5_grace_period_filter.1 36070 60 specScenarioPod
    true (some 36005) (some "completed") (by decide)
  have h3 := C5_grace_period_filter.1 36065 60 specScenarioPod
    true (some 36005) (some "completed") (by decide)
  have he70 := h2.mpr ⟨rfl, Or.inr ⟨36005, rfl, by decide⟩⟩
  have he65 := h3.mpr ⟨rfl, Or.inr ⟨36005, rfl, by decide⟩⟩
  refine ⟨?_, he70, he65, ?_, ?_⟩
  · cases hgoal : pod_deletion_eligible 36030 60 false specScenarioPod with
    | false => rfl
    | true =>
      rcases (h1.mp hgoal).2 with hn | ⟨x, hx, hge⟩
      · exact absurd hn (by decide)
      · injection hx with hx2
        omega
  · exact (C5_grace_period_filter.2.1 36070 30 60 {} [specScenarioPod]
      [] specScenarioPod).mpr ⟨by simp, he70⟩
  · have h4 := (C5_grace_period_filter.2.2 specScenarioPod
      specScenarioStatus "Succeeded" rfl rfl (by decide) (by decide)).1
    rw [h4]
    decide

/-- C2 as stated is false: even when the environment reports it is not
running inside an orchestrated cluster, a `monitor_runs` pass still
resolves the namespace and lists pods — the in-cluster guard exists only
in `delete_resources`. -/
theorem C2_counterexample :
    outOfClusterEnv.is_running_inside_kubernetes_cluster = false
    ∧ (monitor_runs 1000 30 600 {} outOfClusterEnv []).2.1 =
        [Effect.resolveNamespace, Effect.listPods "", Effect.listRuns]
    ∧ Effect.listPods "" ∈
        (monitor_runs 1000 30 600 {} outOfClusterEnv []).2.1 := by
  exact ⟨by decide, by decide, by decide⟩

/-- C2 amended: when the environment reports it is not inside an
orchestrated cluster, `delete_resources` is a no-op — no provider access,
no deletions, store untouched; `monitor_runs` performs no such check: its
pass is identical whatever the in-cluster report says, and (for a
pod-backed kind) it always performs the pod listing. -/
theorem C2_in_cluster_guard :
    (∀ (now debounce grace : Int) (force : Bool) (policy : KindPolicy)
       (env : K8sEnv) (sel : Option String) (db : Db),
      env.is_running_inside_kubernetes_cluster = false →
      delete_resources now debounce grace force policy env sel db =
        ([], db, []))
    ∧ (∀ (now debounce debounce2 : Int) (policy : KindPolicy)
         (env : K8sEnv) (db : Db) (b : Bool),
        monitor_runs now debounce debounce2 policy
            { env with is_running_inside_kubernetes_cluster := b } db =
          monitor_runs now debounce debounce2 policy env db)
    ∧ (∀ (now debounce debounce2 : Int) (policy : KindPolicy)
         (env : K8sEnv) (db : Db),
        policy.hasCrd = false →
        Effect.listPods (get_default_label_selector policy) ∈
          (monitor_runs now debounce debounce2 policy env db).2.1) := by
  refine ⟨?_, ?_, ?_⟩
  · intro now debounce grace force policy env sel db h
    simp [delete_resources, h]
  · intro now debounce debounce2 policy env db b
    cases env
    rfl
  · intro now debounce debounce2 policy env db hcrd
    simp only [monitor_runs, hcrd]
    cases hm : list_runs_for_monitoring env.listed_runs with
    | error e => simp
    | ok m => simp

/-- C2 amended witness: out of cluster, deletion does nothing; the
monitor pass ignores the flag and still lists pods. -/
theorem C2_in_cluster_guard_witness :
    (delete_resources 1000 30 60 false {} outOfClusterEnv none [] =
      ([], [], []))
    ∧ (monitor_runs 1000 30 600 {} outOfClusterEnv [] =
        monitor_runs 1000 30 600 {} inClusterEnv [])
    ∧ Effect.listPods "" ∈
        (monitor_runs 1000 30 600 {} outOfClusterEnv []).2.1 := by
  refine ⟨?_, ?_, ?_⟩
  · exact C2_in_cluster_guard.1 1000 30 60 false {} outOfClusterEnv none
      [] (by decide)
  · exact C2_in_cluster_guard.2.1 1000 30 600 {} inClusterEnv [] false
  · exact C2_in_cluster_guard.2.2 1000 30 600 {} outOfClusterEnv []
      (by decide)

end MlrunBase
